import Mathlib

/-!
Shallow embedding of the Joy-of-Painting ETL pipeline (`data_importer.py`)
and its read-only HTTP query layer (`app.py`).

Python strings are modelled as Lean `String` (a wrapper around `List Char`);
Python `None` becomes `Option.none`; exceptions become explicit error values.
Database tables are modelled as Lean lists of records, with auto-increment
surrogate keys threaded explicitly (ids are assigned consecutively starting
from the next free id, matching `AUTO_INCREMENT` on an initially empty table).
A phase whose transaction is never committed (because an exception aborted it)
contributes no rows, matching the durable effect of the uncommitted
`cursor.execute` calls.
-/

/-- Errors raised by the Python code paths modelled here:
`valueError` models `int(...)` failing on a malformed string (carrying the
offending string), `attributeError` models attribute lookup failing on a
missing method (carrying the attribute name), `stopIteration` models
`next(reader)` on an exhausted iterator. -/
inductive PyError where
  | valueError (s : String)
  | attributeError (s : String)
  | stopIteration
deriving DecidableEq, Repr

/-- One record of the colors CSV, read with the explicit column list
`['painting_title', 'season', 'episode', 'img_src', 'youtube_src', 'colors',
'color_hex']` (see `DataImporter.import_data`). All fields raw strings. -/
structure ColorRow where
  painting_title : String
  season : String
  episode : String
  img_src : String
  youtube_src : String
  colors : String
  color_hex : String
deriving DecidableEq, Repr

/-- One record of the episode-dates CSV, columns `['Title', 'Date']`. -/
structure DateRow where
  Title : String
  Date : String
deriving DecidableEq, Repr

/-- One record of the subject-matter CSV, column list `['EPISODE']`. -/
structure SubjectRow where
  EPISODE : String
deriving DecidableEq, Repr

/-- A row of the `episodes` table as inserted by
`DataImporter._import_episodes`: surrogate key plus the six inserted
columns; `air_date` is nullable. -/
structure EpisodeRec where
  episode_id : Nat
  title : String
  season_number : Int
  episode_number : Int
  painting_img_src : String
  painting_yt_src : String
  air_date : Option String
deriving DecidableEq, Repr

/-- A row of the `colors` table (`color_id`, `color_name`, `color_hex`). -/
structure ColorRec where
  color_id : Nat
  color_name : String
  color_hex : String
deriving DecidableEq, Repr

/-- A row of the `subject_matters` table. -/
structure SubjectRec where
  subject_matter_id : Nat
  subject_matter_name : String
deriving DecidableEq, Repr

/-- Python `str.strip()` on the underlying character list: drop whitespace
from the front, then from the back. -/
def pyStripList (l : List Char) : List Char :=
  ((l.dropWhile Char.isWhitespace).reverse.dropWhile Char.isWhitespace).reverse

/-- Python `str.strip()`: remove leading and trailing whitespace. -/
def pyStrip (s : String) : String :=
  ⟨pyStripList s.data⟩

/-- Value of a nonempty all-digit character list, `none` otherwise. -/
def parseDigits (l : List Char) : Option Nat :=
  if l = [] then none
  else if l.all Char.isDigit then
    some (l.foldl (fun acc c => acc * 10 + (c.toNat - 48)) 0)
  else none

/-- Python `int(s)` on a string: surrounding whitespace is ignored, an
optional single leading sign is allowed, the rest must be decimal digits;
otherwise the call raises `ValueError` (here: `none`). Digit-grouping
underscores are not modelled. -/
def pyInt (s : String) : Option Int :=
  match pyStripList s.data with
  | [] => none
  | c :: rest =>
    if c = '+' then (parseDigits rest).map Int.ofNat
    else if c = '-' then (parseDigits rest).map (fun n => -(n : Int))
    else (parseDigits (c :: rest)).map Int.ofNat

/-- Split a character list on a separator character, keeping empty pieces,
as Python `str.split(sep)` does with a one-character separator. -/
def splitOnChar (c : Char) : List Char → List (List Char)
  | [] => [[]]
  | x :: xs =>
    match splitOnChar c xs with
    | [] => [[]]
    | h :: t => if x = c then [] :: h :: t else (x :: h) :: t

/-- Python `s.split(sep)` for a single-character separator `sep`:
`pySplit "" c = [""]`, empty pieces between adjacent separators are kept,
and no trimming happens. -/
def pySplit (s : String) (sep : Char) : List String :=
  (splitOnChar sep s.data).map String.mk

/-- The air-date lookup of `DataImporter._import_episodes`, line
`next((date['Date'] for date in dates_data if date['Title'].strip() == title), None)`:
the `Date` of the first dates record whose stripped `Title` equals the
(unstripped) color-row title, else `none`. -/
def lookupAirDate (dates_data : List DateRow) (title : String) : Option String :=
  (dates_data.find? (fun date => pyStrip date.Title == title)).map (fun date => date.Date)

/-- The row loop of `DataImporter._import_episodes`, with the next
auto-increment id threaded through. Each color row yields one `episodes`
row; `int(row['season'])` and `int(row['episode'])` raising `ValueError`
aborts the phase (the exception is printed and re-raised, and the
transaction is never committed, so no rows take effect). -/
def importEpisodesFrom (dates_data : List DateRow) : Nat → List ColorRow → Except PyError (List EpisodeRec)
  | _, [] => .ok []
  | n, row :: rest =>
    match pyInt row.season with
    | none => .error (.valueError row.season)
    | some s =>
      match pyInt row.episode with
      | none => .error (.valueError row.episode)
      | some e =>
        match importEpisodesFrom dates_data (n + 1) rest with
        | .error err => .error err
        | .ok eps =>
          .ok ({ episode_id := n
               , title := row.painting_title
               , season_number := s
               , episode_number := e
               , painting_img_src := row.img_src
               , painting_yt_src := row.youtube_src
               , air_date := lookupAirDate dates_data row.painting_title } :: eps)

/-- Method `DataImporter._import_episodes` on an initially empty `episodes` table
(auto-increment starts at 1). -/
def importEpisodes (colors_data : List ColorRow) (dates_data : List DateRow) : Except PyError (List EpisodeRec) :=
  importEpisodesFrom dates_data 1 colors_data

example : pyInt " 12 " = some 12 := by decide
example : pyInt "-3" = some (-3) := by decide
example : pyInt "abc" = none := by decide
example : pyInt "" = none := by decide
example : pyStrip "  a b " = "a b" := by decide
example : pySplit "a;;b" ';' = ["a", "", "b"] := by decide
example : pySplit "" ';' = [""] := by decide

/-- The row loop of `CSVReader.read_file`: keep exactly the rows whose field
count matches the column count, turning each into a field-name/value record
(`dict(zip(columns, row))`, modelled as the association list `columns.zip row`;
the supplied column names are distinct in every call site, so the dict and
the association list agree). -/
def readLoop (columns : List String) : List (List String) → List (List (String × String))
  | [] => []
  | row :: rest =>
    if row.length = columns.length then columns.zip row :: readLoop columns rest
    else readLoop columns rest

/-- Method `CSVReader.read_file`, with the file modelled as the list of its parsed
CSV rows. With an explicit column list the loop runs over all rows. With
`columns = None` the first row is taken as the column list
(`columns = next(reader)`) — but `file.seek(0)` then rewinds the file and a
fresh reader is built, so the subsequent loop again runs over all rows,
the header row included; on an empty file `next(reader)` raises
`StopIteration`, which propagates. -/
def read_file (rows : List (List String)) (columns : Option (List String)) : Except PyError (List (List (String × String))) :=
  match columns with
  | some cols => .ok (readLoop cols rows)
  | none =>
    match rows with
    | [] => .error .stopIteration
    | first :: _ => .ok (readLoop first rows)

/-- The five `CREATE TABLE IF NOT EXISTS` statements of
`DataImporter.setup_tables`, in the (insertion-preserving) order of the
`queries` dict. -/
def table_order : List String :=
  ["episodes", "colors", "episode_colors", "subject_matters", "episode_subject_matters"]

/-- Effect of one `CREATE TABLE IF NOT EXISTS t` on a schema (the list of
existing table definitions, in creation order): a no-op when the table
exists, else the table is added. It never errors. -/
def createTableIfNotExists (schema : List String) (t : String) : List String :=
  if t ∈ schema then schema else schema ++ [t]

/-- Method `DataImporter.setup_tables`: execute the five DDL statements in order. -/
def setup_tables (schema : List String) : List String :=
  table_order.foldl createTableIfNotExists schema

/-- The insertion loop of `DataImporter._import_colors`: one `colors` row
per color row, in file order, no deduplication, ids auto-incremented from
`start`. -/
def importColorsFrom (start : Nat) : List ColorRow → List ColorRec
  | [] => []
  | row :: rest => ⟨start, row.colors, row.color_hex⟩ :: importColorsFrom (start + 1) rest

/-- The token set built by `DataImporter._import_subject_matters`: every
row's `EPISODE` field split on `';'`, all tokens accumulated into a set
(modelled as a duplicate-free list; Python set iteration order is
unspecified, so only the underlying set of elements is significant). -/
def subjectMatterTokens (subject_matters_data : List SubjectRow) : List String :=
  (subject_matters_data.flatMap (fun row => pySplit row.EPISODE ';')).dedup

/-- The insertion loop of `DataImporter._import_subject_matters`: one
`subject_matters` row per distinct token, ids auto-incremented from `start`. -/
def attachSubjectIds (start : Nat) : List String → List SubjectRec
  | [] => []
  | t :: ts => ⟨start, t⟩ :: attachSubjectIds (start + 1) ts

/-- Method `DataImporter._import_subject_matters` starting from id `start`. -/
def importSubjectMattersFrom (subject_matters_data : List SubjectRow) (start : Nat) : List SubjectRec :=
  attachSubjectIds start (subjectMatterTokens subject_matters_data)

/-- The database state: the five tables created by `setup_tables`
(join-table rows are episode-id/dimension-id pairs). -/
structure DB where
  episodes : List EpisodeRec
  colors : List ColorRec
  subject_matters : List SubjectRec
  episode_colors : List (Nat × Nat)
  episode_subject_matters : List (Nat × Nat)
deriving DecidableEq, Repr

/-- The empty schema the import run assumes. -/
def emptyDB : DB := ⟨[], [], [], [], []⟩

/-- Method `DataImporter.import_data` after the three CSV files have been read:
runs the episode, color and subject-matter phases, each committed
independently, then calls `self._import_episode_colors(colors_data)` —
a method that is not defined anywhere on `DataImporter`, so attribute
lookup raises `AttributeError` and the run aborts (the error is printed
and re-raised). The association phases therefore never execute. Returns
the durably committed state together with the error, if any, that ended
the run. -/
def import_data (colors_data : List ColorRow) (subject_matters_data : List SubjectRow)
    (dates_data : List DateRow) (db : DB) : DB × Option PyError :=
  match importEpisodesFrom dates_data (db.episodes.length + 1) colors_data with
  | .error e => (db, some e)
  | .ok eps =>
    let db1 : DB := { db with episodes := db.episodes ++ eps }
    let db2 : DB := { db1 with colors := db1.colors ++ importColorsFrom (db1.colors.length + 1) colors_data }
    let db3 : DB := { db2 with subject_matters :=
      db2.subject_matters ++ importSubjectMattersFrom subject_matters_data (db2.subject_matters.length + 1) }
    (db3, some (.attributeError "_import_episode_colors"))

/-- Body of an HTTP response of the API layer: either a single episode
serialized as a flat JSON object, or an error object `\x7b"error": msg\x7d`. -/
inductive ApiBody where
  | episodeObject (ep : EpisodeRec)
  | errorObject (msg : String)
deriving DecidableEq, Repr

/-- Handler `get_episode` of `app.py` (route `GET /api/episodes/<int:episode_id>`).
The storage layer is modelled as either the `episodes` table contents or a
failure message (connection or query error). `fetchone` on the
parameterized `SELECT` returns the first row with the requested
`episode_id`; a found row yields 200 with the flat record, no row yields
404 with the fixed error body, a storage failure yields 500 with the
exception message. -/
def get_episode (store : Except String (List EpisodeRec)) (episode_id : Nat) : Nat × ApiBody :=
  match store with
  | .error e => (500, .errorObject e)
  | .ok rows =>
    match rows.find? (fun ep => ep.episode_id == episode_id) with
    | some ep => (200, .episodeObject ep)
    | none => (404, .errorObject "Episode not found")

deriving instance DecidableEq for Except

example : read_file [["a", "b"], ["1", "2"]] none =
    .ok [[("a", "a"), ("b", "b")], [("a", "1"), ("b", "2")]] := by decide
example : read_file [["a"], ["b", "c"]] (some ["x"]) = .ok [[("x", "a")]] := by decide
example : setup_tables (setup_tables []) = table_order := by decide
example : subjectMatterTokens [⟨"a;b"⟩, ⟨"b; c"⟩] = ["a", "b", " c"] := by decide

theorem importEpisodesFrom_spec (dates_data : List DateRow) :
    ∀ (colors_data : List ColorRow) (n : Nat) (eps : List EpisodeRec),
      importEpisodesFrom dates_data n colors_data = .ok eps →
      eps.length = colors_data.length ∧
      ∀ i (hi : i < eps.length) (hc : i < colors_data.length),
        ∃ s e,
          pyInt (colors_data.get ⟨i, hc⟩).season = some s ∧
          pyInt (colors_data.get ⟨i, hc⟩).episode = some e ∧
          eps.get ⟨i, hi⟩ =
            { episode_id := n + i
            , title := (colors_data.get ⟨i, hc⟩).painting_title
            , season_number := s
            , episode_number := e
            , painting_img_src := (colors_data.get ⟨i, hc⟩).img_src
            , painting_yt_src := (colors_data.get ⟨i, hc⟩).youtube_src
            , air_date := lookupAirDate dates_data (colors_data.get ⟨i, hc⟩).painting_title } := by
  intro colors_data
  induction colors_data with
  | nil =>
    intro n eps h
    simp only [importEpisodesFrom] at h
    cases h
    exact ⟨rfl, fun i hi hc => absurd hi (by simp)⟩
  | cons row rest ih =>
    intro n eps h
    simp only [importEpisodesFrom] at h
    cases hs : pyInt row.season with
    | none => rw [hs] at h; cases h
    | some s =>
      rw [hs] at h
      cases he : pyInt row.episode with
      | none => rw [he] at h; cases h
      | some e =>
        rw [he] at h
        cases hr : importEpisodesFrom dates_data (n + 1) rest with
        | error err => rw [hr] at h; cases h
        | ok eps' =>
          rw [hr] at h
          cases h
          obtain ⟨hlen, hspec⟩ := ih (n + 1) eps' hr
          refine ⟨by simp [hlen], ?_⟩
          intro i hi hc
          cases i with
          | zero => exact ⟨s, e, hs, he, rfl⟩
          | succ j =>
            have hj : j < eps'.length := by simpa using hi
            have hjc : j < rest.length := by simpa using hc
            obtain ⟨s', e', hs', he', hget⟩ := hspec j hj hjc
            refine ⟨s', e', ?_, ?_, ?_⟩
            · simpa using hs'
            · simpa using he'
            · have : n + (j + 1) = (n + 1) + j := by omega
              rw [this]
              simpa using hget

/-- C1: for every colors dataset and dates dataset on which the
episode import succeeds, it produces exactly one Episode record per color row — the
record count equals the color-row count (not the distinct-episode count),
the i-th Episode carries the i-th color row's title and parsed
season/episode numbers (so N color rows of one episode yield N Episode rows
with the same title/season/episode), and all surrogate ids are distinct. -/
theorem episodes_one_per_color_row
    (colors_data : List ColorRow) (dates_data : List DateRow) (n : Nat) (eps : List EpisodeRec)
    (h : importEpisodesFrom dates_data n colors_data = .ok eps) :
    eps.length = colors_data.length ∧
    (∀ i (hi : i < eps.length) (hc : i < colors_data.length),
      (eps.get ⟨i, hi⟩).title = (colors_data.get ⟨i, hc⟩).painting_title ∧
      pyInt (colors_data.get ⟨i, hc⟩).season = some (eps.get ⟨i, hi⟩).season_number ∧
      pyInt (colors_data.get ⟨i, hc⟩).episode = some (eps.get ⟨i, hi⟩).episode_number ∧
      (eps.get ⟨i, hi⟩).episode_id = n + i) ∧
    (∀ i j (hi : i < eps.length) (hj : j < eps.length),
      i ≠ j → (eps.get ⟨i, hi⟩).episode_id ≠ (eps.get ⟨j, hj⟩).episode_id) := by
  obtain ⟨hlen, hspec⟩ := importEpisodesFrom_spec dates_data colors_data n eps h
  refine ⟨hlen, ?_, ?_⟩
  · intro i hi hc
    obtain ⟨s, e, hs, he, hget⟩ := hspec i hi hc
    rw [hget]
    exact ⟨rfl, hs, he, rfl⟩
  · intro i j hi hj hne
    have hci : i < colors_data.length := hlen ▸ hi
    have hcj : j < colors_data.length := hlen ▸ hj
    obtain ⟨si, ei, _, _, hgi⟩ := hspec i hi hci
    obtain ⟨sj, ej, _, _, hgj⟩ := hspec j hj hcj
    rw [hgi, hgj]
    simpa using fun hcontra => hne (by omega)

/-- The end-to-end example of spec §8: two color rows of the same episode
"Mountain Grandeur" and one dates entry for it. -/
def mgColors : List ColorRow :=
  [⟨"Mountain Grandeur", "1", "1", "img1", "yt1", "Van Dyke Brown", "#5C4033"⟩,
   ⟨"Mountain Grandeur", "1", "1", "img1", "yt1", "Titanium White", "#FFFFFF"⟩]

/-- The dates file of the spec §8 end-to-end example. -/
def mgDates : List DateRow := [⟨"Mountain Grandeur", "1983-01-11"⟩]

/-- The two Episode rows the §8 example produces. -/
def mgEps : List EpisodeRec :=
  [⟨1, "Mountain Grandeur", 1, 1, "img1", "yt1", some "1983-01-11"⟩,
   ⟨2, "Mountain Grandeur", 1, 1, "img1", "yt1", some "1983-01-11"⟩]

/-- C1 witness: on the §8 example input the import succeeds and the theorem
applies — two color rows of one episode give two Episode rows with distinct
ids. -/
theorem episodes_one_per_color_row_witness :
    importEpisodesFrom mgDates 1 mgColors = .ok mgEps ∧
    mgEps.length = mgColors.length ∧
    (mgEps.get ⟨0, by decide⟩).episode_id ≠ (mgEps.get ⟨1, by decide⟩).episode_id := by
  have h := episodes_one_per_color_row mgColors mgDates 1 mgEps (by decide)
  exact ⟨by decide, h.1, h.2.2 0 1 (by decide) (by decide) (by decide)⟩

theorem find?_eq_of_first {α : Type} (p : α → Bool) :
    ∀ (l : List α) (j : Nat) (hj : j < l.length),
      p (l.get ⟨j, hj⟩) = true →
      (∀ k (hk : k < j), p (l.get ⟨k, Nat.lt_trans hk hj⟩) = false) →
      l.find? p = some (l.get ⟨j, hj⟩) := by
  intro l
  induction l with
  | nil => intro j hj; exact absurd hj (by simp)
  | cons a l ih =>
    intro j hj hp hmin
    cases j with
    | zero => exact List.find?_cons_of_pos _ hp
    | succ j' =>
      have ha : p a = false := hmin 0 (Nat.succ_pos j')
      rw [List.find?_cons_of_neg _ (by simp [ha])]
      have hj' : j' < l.length := by simpa using hj
      have hp' : p (l.get ⟨j', hj'⟩) = true := by simpa using hp
      have hmin' : ∀ k (hk : k < j'), p (l.get ⟨k, Nat.lt_trans hk hj'⟩) = false := by
        intro k hk
        simpa using hmin (k + 1) (by omega)
      simpa using ih j' hj' hp' hmin'

/-- C2: for each color row processed by a successful episode import, the air
date is looked up by comparing the trimmed dates-file `Title` with the color
row's title: when some dates record matches, the Episode's air date is the
`Date` of the first matching record in file order; when none matches, the
air date is null and no error arises. -/
theorem episode_air_date_first_match
    (colors_data : List ColorRow) (dates_data : List DateRow) (n : Nat) (eps : List EpisodeRec)
    (h : importEpisodesFrom dates_data n colors_data = .ok eps) :
    eps.length = colors_data.length ∧
    ∀ i (hi : i < eps.length) (hc : i < colors_data.length),
      ((∀ d ∈ dates_data, pyStrip d.Title ≠ (colors_data.get ⟨i, hc⟩).painting_title) →
        (eps.get ⟨i, hi⟩).air_date = none) ∧
      (∀ j (hj : j < dates_data.length),
        pyStrip (dates_data.get ⟨j, hj⟩).Title = (colors_data.get ⟨i, hc⟩).painting_title →
        (∀ k (hk : k < j),
          pyStrip (dates_data.get ⟨k, Nat.lt_trans hk hj⟩).Title ≠ (colors_data.get ⟨i, hc⟩).painting_title) →
        (eps.get ⟨i, hi⟩).air_date = some (dates_data.get ⟨j, hj⟩).Date) := by
  obtain ⟨hlen, hspec⟩ := importEpisodesFrom_spec dates_data colors_data n eps h
  refine ⟨hlen, ?_⟩
  intro i hi hc
  obtain ⟨s, e, _, _, hget⟩ := hspec i hi hc
  have hair : (eps.get ⟨i, hi⟩).air_date
      = lookupAirDate dates_data (colors_data.get ⟨i, hc⟩).painting_title := by
    rw [hget]
  constructor
  · intro hnone
    have hfind0 : dates_data.find? (fun date => pyStrip date.Title == (colors_data.get ⟨i, hc⟩).painting_title) = none := by
      rw [List.find?_eq_none]
      intro d hd
      simpa using hnone d hd
    rw [hair]
    simp only [lookupAirDate]
    rw [hfind0]
    rfl
  · intro j hj heq hmin
    have hfind :
        dates_data.find? (fun date => pyStrip date.Title == (colors_data.get ⟨i, hc⟩).painting_title)
          = some (dates_data.get ⟨j, hj⟩) := by
      refine find?_eq_of_first _ dates_data j hj (by simpa using heq) ?_
      intro k hk
      simpa using hmin k hk
    rw [hair]
    simp only [lookupAirDate]
    rw [hfind]
    rfl

/-- Input exercising the first-match rule: the second and third dates rows
both match the first color row's title after trimming; the second color
row's title is absent from the dates file. -/
def c2Colors : List ColorRow :=
  [⟨"T", "1", "1", "i1", "y1", "Black Gesso", "#000000"⟩,
   ⟨"Missing", "2", "3", "i2", "y2", "Alizarin Crimson", "#4E1500"⟩]

/-- Dates file for the C2 witness: two rows whose trimmed `Title` is `"T"`. -/
def c2Dates : List DateRow := [⟨"Other", "d0"⟩, ⟨" T ", "d1"⟩, ⟨"T", "d2"⟩]

/-- Episodes the C2 witness input produces. -/
def c2Eps : List EpisodeRec :=
  [⟨1, "T", 1, 1, "i1", "y1", some "d1"⟩,
   ⟨2, "Missing", 2, 3, "i2", "y2", none⟩]

/-- C2 witness: on the concrete input the first of the two matching dates
rows supplies the air date, and the row with no matching title gets a null
air date. -/
theorem episode_air_date_first_match_witness :
    importEpisodesFrom c2Dates 1 c2Colors = .ok c2Eps ∧
    (c2Eps.get ⟨0, by decide⟩).air_date = some "d1" ∧
    (c2Eps.get ⟨1, by decide⟩).air_date = none := by
  have h := episode_air_date_first_match c2Colors c2Dates 1 c2Eps (by decide)
  refine ⟨by decide, ?_, ?_⟩
  · exact (h.2 0 (by decide) (by decide)).2 1 (by decide) (by decide) (by decide)
  · exact (h.2 1 (by decide) (by decide)).1 (by decide)

theorem head?_dropWhile_false {p : Char → Bool} {l : List Char} {c : Char}
    (h : (l.dropWhile p).head? = some c) : p c = false := by
  have hnot := List.head?_dropWhile_not p l
  rw [h] at hnot
  exact hnot

theorem pyStripList_head {l : List Char} {c : Char}
    (h : (pyStripList l).head? = some c) : c.isWhitespace = false := by
  unfold pyStripList at h
  rw [List.head?_reverse] at h
  obtain ⟨t, ht⟩ :=
    List.dropWhile_suffix (l := (l.dropWhile Char.isWhitespace).reverse) Char.isWhitespace
  have h2 : ((l.dropWhile Char.isWhitespace).reverse).getLast? = some c := by
    rw [← ht, List.getLast?_append, h]
    rfl
  rw [List.getLast?_reverse] at h2
  exact head?_dropWhile_false h2

theorem pyStripList_getLast {l : List Char} {c : Char}
    (h : (pyStripList l).getLast? = some c) : c.isWhitespace = false := by
  unfold pyStripList at h
  rw [List.getLast?_reverse] at h
  exact head?_dropWhile_false h

/-- A string carries leading or trailing whitespace. -/
def hasEdgeWhitespace (t : String) : Bool :=
  t.data.head?.any Char.isWhitespace || t.data.getLast?.any Char.isWhitespace

theorem pyStrip_ne_of_edge_whitespace {t : String}
    (ht : hasEdgeWhitespace t = true) : ∀ s : String, pyStrip s ≠ t := by
  intro s heq
  have hdata : pyStripList s.data = t.data := congrArg String.data heq
  rw [hasEdgeWhitespace, Bool.or_eq_true] at ht
  cases ht with
  | inl h1 =>
    cases h1c : t.data.head? with
    | none => rw [h1c] at h1; simp [Option.any] at h1
    | some c =>
      rw [h1c] at h1
      simp only [Option.any] at h1
      have hc : (pyStripList s.data).head? = some c := by rw [hdata, h1c]
      have hf := pyStripList_head hc
      rw [h1] at hf
      cases hf
  | inr h1 =>
    cases h1c : t.data.getLast? with
    | none => rw [h1c] at h1; simp [Option.any] at h1
    | some c =>
      rw [h1c] at h1
      simp only [Option.any] at h1
      have hc : (pyStripList s.data).getLast? = some c := by rw [hdata, h1c]
      have hf := pyStripList_getLast hc
      rw [h1] at hf
      cases hf

/-- C10: the air-date comparison trims only the dates-file `Title`, never
the color row's `painting_title`: whenever a successfully imported color
row's title carries leading or trailing whitespace, no dates record can
match it — a trimmed string never has edge whitespace — so that Episode's
air date is null, regardless of the dates dataset. -/
theorem air_date_null_for_untrimmed_title
    (colors_data : List ColorRow) (dates_data : List DateRow) (n : Nat) (eps : List EpisodeRec)
    (h : importEpisodesFrom dates_data n colors_data = .ok eps) :
    ∀ i (hi : i < eps.length) (hc : i < colors_data.length),
      hasEdgeWhitespace (colors_data.get ⟨i, hc⟩).painting_title = true →
      (eps.get ⟨i, hi⟩).air_date = none := by
  obtain ⟨_, hspec⟩ := importEpisodesFrom_spec dates_data colors_data n eps h
  intro i hi hc hws
  obtain ⟨s, e, _, _, hget⟩ := hspec i hi hc
  have hair : (eps.get ⟨i, hi⟩).air_date
      = lookupAirDate dates_data (colors_data.get ⟨i, hc⟩).painting_title := by
    rw [hget]
  have hfind0 : dates_data.find?
      (fun date => pyStrip date.Title == (colors_data.get ⟨i, hc⟩).painting_title) = none := by
    rw [List.find?_eq_none]
    intro d _
    simpa using pyStrip_ne_of_edge_whitespace hws d.Title
  rw [hair]
  simp only [lookupAirDate]
  rw [hfind0]
  rfl

/-- C10 witness input: the color title has a leading space; the dates file
contains an entry whose trimmed `Title` equals the color title's trimmed
form. -/
def c10Colors : List ColorRow :=
  [⟨" Mountain Grandeur", "1", "1", "i", "y", "Phthalo Blue", "#0C0040"⟩]

/-- C10 witness dates file. -/
def c10Dates : List DateRow := [⟨"Mountain Grandeur ", "1983-01-11"⟩]

/-- C10 witness episodes output. -/
def c10Eps : List EpisodeRec := [⟨1, " Mountain Grandeur", 1, 1, "i", "y", none⟩]

/-- C10 witness: the trimmed forms of the two titles agree, yet the air
date is null because the color-row title is compared untrimmed. -/
theorem air_date_null_for_untrimmed_title_witness :
    importEpisodesFrom c10Dates 1 c10Colors = .ok c10Eps ∧
    pyStrip " Mountain Grandeur" = pyStrip "Mountain Grandeur " ∧
    (c10Eps.get ⟨0, by decide⟩).air_date = none := by
  refine ⟨by decide, by decide, ?_⟩
  exact air_date_null_for_untrimmed_title c10Colors c10Dates 1 c10Eps (by decide) 0
    (by decide) (by decide) (by decide)

/-- A colors dataset whose first row has a non-numeric season field,
followed by a fully valid row. -/
def c4Colors : List ColorRow :=
  [⟨"A Walk in the Woods", "abc", "1", "i1", "y1", "Bright Red", "#DB0000"⟩,
   ⟨"A Walk in the Woods", "1", "1", "i1", "y1", "Titanium White", "#FFFFFF"⟩]

/-- C4 counterexample: on a dataset whose first row has the malformed
season field `"abc"`, the episode import does not record a per-row error
and continue — it aborts with the `ValueError` raised by `int("abc")`, so
the following valid row is never processed and no Episode records result. -/
theorem malformed_season_aborts_concrete :
    importEpisodesFrom [] 1 c4Colors = .error (.valueError "abc") := by decide

/-- C4 (amended): whenever some color row's season or episode field is not
a valid integer, the episode import phase ends in an error — the malformed
row is not skipped, nothing is recorded per-row, and the run does not
continue. -/
theorem malformed_numeric_aborts_run
    (colors_data : List ColorRow) (dates_data : List DateRow) (n : Nat) (row : ColorRow)
    (hmem : row ∈ colors_data)
    (hbad : pyInt row.season = none ∨ pyInt row.episode = none) :
    (importEpisodesFrom dates_data n colors_data).isOk = false := by
  cases hres : importEpisodesFrom dates_data n colors_data with
  | error err => rfl
  | ok eps =>
    exfalso
    obtain ⟨hlen, hspec⟩ := importEpisodesFrom_spec dates_data colors_data n eps hres
    obtain ⟨⟨i, hc⟩, hget⟩ := List.mem_iff_get.mp hmem
    obtain ⟨s, e, hs, he, _⟩ := hspec i (hlen ▸ hc) hc
    rw [hget] at hs he
    cases hbad with
    | inl hb => rw [hb] at hs; cases hs
    | inr hb => rw [hb] at he; cases he

/-- C4 witness for the amended theorem: the concrete malformed dataset
satisfies its hypotheses and the import indeed ends in an error. -/
theorem malformed_numeric_aborts_run_witness :
    (importEpisodesFrom [] 1 c4Colors).isOk = false :=
  malformed_numeric_aborts_run c4Colors [] 1
    ⟨"A Walk in the Woods", "abc", "1", "i1", "y1", "Bright Red", "#DB0000"⟩
    (by decide) (Or.inl (by decide))

/-- Subject-matter file used in the C3 counterexample. -/
def c3Subjects : List SubjectRow := [⟨"TREE;BUSH"⟩]

/-- C3 counterexample: on the spec §8 end-to-end input the full import run
commits the episode, color and subject-matter phases, but then fails with
`AttributeError` on `self._import_episode_colors` (the method does not
exist), so no successful run occurs and both join tables stay empty even
though episodes and colors were inserted. -/
theorem association_import_fails_concrete :
    import_data mgColors c3Subjects mgDates emptyDB =
      ({ episodes := mgEps
        , colors := [⟨1, "Van Dyke Brown", "#5C4033"⟩, ⟨2, "Titanium White", "#FFFFFF"⟩]
        , subject_matters := [⟨1, "TREE"⟩, ⟨2, "BUSH"⟩]
        , episode_colors := []
        , episode_subject_matters := [] }, some (.attributeError "_import_episode_colors")) := by
  decide

/-- C3 (amended): `import_data` names the association import as a step but
calls methods (`_import_episode_colors`, `_import_episode_subject_matters`)
that are not defined on `DataImporter`; consequently every import run from
an empty schema terminates with an error (an `AttributeError` when the
earlier phases succeed) and the `episode_colors` and
`episode_subject_matters` join tables are never populated. -/
theorem association_tables_never_populated
    (colors_data : List ColorRow) (subject_matters_data : List SubjectRow)
    (dates_data : List DateRow) :
    (import_data colors_data subject_matters_data dates_data emptyDB).1.episode_colors = [] ∧
    (import_data colors_data subject_matters_data dates_data emptyDB).1.episode_subject_matters = [] ∧
    (import_data colors_data subject_matters_data dates_data emptyDB).2.isSome = true := by
  unfold import_data
  cases importEpisodesFrom dates_data (emptyDB.episodes.length + 1) colors_data with
  | error e => exact ⟨rfl, rfl, rfl⟩
  | ok eps => exact ⟨rfl, rfl, rfl⟩

/-- A two-row CSV file: header row `a,b`, then a data row `1,2`. -/
def c5Rows : List (List String) := [["a", "b"], ["1", "2"]]

/-- C5: when no column list is given, `read_file` takes the first row as
the header — but then rewinds the file (`file.seek(0)`) and iterates a
fresh reader over all rows, so the header row itself is also emitted, as a
record mapping every field name to itself. On the header-plus-one-data-row
file the output has two records, the first being the header row. -/
theorem read_file_header_reemitted :
    read_file c5Rows none = .ok [[("a", "a"), ("b", "b")], [("a", "1"), ("b", "2")]] := by
  decide

/-- C6: the Subject-Matter Importer splits every row's `EPISODE` field on
`';'` and inserts one record per distinct token (exact, untrimmed string
equality): each token produced by some split occurs exactly once among the
inserted subject-matter names, and nothing else occurs. -/
theorem subject_matter_tokens_once
    (subject_matters_data : List SubjectRow) (start : Nat) (tok : String) :
    ((importSubjectMattersFrom subject_matters_data start).map (fun r => r.subject_matter_name)).count tok
      = if tok ∈ subject_matters_data.flatMap (fun row => pySplit row.EPISODE ';') then 1 else 0 := by
  have hmap : ∀ (st : Nat) (ts : List String),
      (attachSubjectIds st ts).map (fun r => r.subject_matter_name) = ts := by
    intro st ts
    induction ts generalizing st with
    | nil => rfl
    | cons a t ih => simp [attachSubjectIds, ih]
  rw [importSubjectMattersFrom, hmap, subjectMatterTokens, List.count_dedup]

/-- C7: a row whose field count differs from the column count is silently
skipped by the CSV loader: reading never raises (the result is `ok` for
every input) and the output with the mismatched row present is identical to
the output with it removed. -/
theorem csv_loader_skips_mismatched_rows
    (cols : List String) (pre post : List (List String)) (row : List String)
    (hbad : row.length ≠ cols.length) :
    read_file (pre ++ row :: post) (some cols) = read_file (pre ++ post) (some cols) ∧
    read_file (pre ++ row :: post) (some cols) = .ok (readLoop cols (pre ++ post)) := by
  have key : readLoop cols (pre ++ row :: post) = readLoop cols (pre ++ post) := by
    induction pre with
    | nil => simp [readLoop, if_neg hbad]
    | cons a t ih =>
      by_cases h : a.length = cols.length <;> simp [readLoop, h, ih]
  exact ⟨by simp [read_file, key], by simp [read_file, key]⟩

/-- C7 witness: a concrete file with one good row and one two-field row
read against a one-column list — the bad row changes nothing and the read
succeeds. -/
theorem csv_loader_skips_mismatched_rows_witness :
    read_file [["a"], ["b", "c"]] (some ["x"]) = read_file [["a"]] (some ["x"]) ∧
    read_file [["a"], ["b", "c"]] (some ["x"]) = .ok [[("x", "a")]] := by
  have h := csv_loader_skips_mismatched_rows ["x"] [["a"]] [] ["b", "c"] (by decide)
  exact ⟨h.1, by decide⟩

theorem mem_foldl_create (ts : List String) :
    ∀ (s : List String) (t : String), t ∈ s ∨ t ∈ ts →
      t ∈ ts.foldl createTableIfNotExists s := by
  induction ts with
  | nil =>
    intro s t h
    cases h with
    | inl h => exact h
    | inr h => cases h
  | cons a ts ih =>
    intro s t h
    simp only [List.foldl]
    apply ih
    cases h with
    | inl hs =>
      exact Or.inl (by unfold createTableIfNotExists; split <;> simp [hs])
    | inr hts =>
      cases List.mem_cons.mp hts with
      | inl heq =>
        subst heq
        exact Or.inl (by unfold createTableIfNotExists; split <;> simp_all)
      | inr h2 => exact Or.inr h2

theorem foldl_create_noop (ts : List String) :
    ∀ s, (∀ t ∈ ts, t ∈ s) → ts.foldl createTableIfNotExists s = s := by
  induction ts with
  | nil => intro s _; rfl
  | cons a ts ih =>
    intro s hall
    have ha : a ∈ s := hall a (by simp)
    simp only [List.foldl]
    rw [show createTableIfNotExists s a = s from by simp [createTableIfNotExists, ha]]
    exact ih s (fun t ht => hall t (by simp [ht]))

/-- C8: the Schema Initializer is idempotent — applying `setup_tables` to a
schema that already went through it changes nothing (each
`CREATE TABLE IF NOT EXISTS` is a no-op, and no error path exists), and
invoking it any positive number of times on the empty schema leaves exactly
the five tables of the target schema (the base tables `episodes`, `colors`,
`subject_matters` and the join tables `episode_colors`,
`episode_subject_matters`), each defined exactly once. -/
theorem setup_tables_idempotent :
    (∀ schema, setup_tables (setup_tables schema) = setup_tables schema) ∧
    (∀ n, 0 < n → setup_tables^[n] [] = table_order ∧
      ∀ t ∈ table_order, (setup_tables^[n] []).count t = 1) := by
  have hidem : ∀ schema, setup_tables (setup_tables schema) = setup_tables schema := by
    intro schema
    exact foldl_create_noop table_order (setup_tables schema)
      (fun t ht => mem_foldl_create table_order schema t (Or.inr ht))
  refine ⟨hidem, ?_⟩
  intro n hn
  induction n with
  | zero => exact absurd hn (by simp)
  | succ m ih =>
    cases Nat.eq_zero_or_pos m with
    | inl h0 =>
      subst h0
      constructor
      · rw [Function.iterate_one]; decide
      · rw [Function.iterate_one]
        rw [show setup_tables [] = table_order from by decide]
        decide
    | inr hm =>
      obtain ⟨hiter, _⟩ := ih hm
      rw [Function.iterate_succ_apply', hiter]
      constructor
      · exact foldl_create_noop table_order table_order (fun t ht => ht)
      · rw [show setup_tables table_order = table_order from
          foldl_create_noop table_order table_order (fun t ht => ht)]
        decide

/-- C8 witness: two consecutive invocations starting from the empty schema
leave the five tables, each once. -/
theorem setup_tables_idempotent_witness :
    setup_tables^[2] [] = table_order ∧ (setup_tables^[2] []).count "episodes" = 1 := by
  have h := setup_tables_idempotent
  exact ⟨(h.2 2 (by decide)).1, (h.2 2 (by decide)).2 "episodes" (by decide)⟩

/-- C9: `GET /api/episodes/id` returns 404 with body `"error": "Episode
not found"` when no stored episode has the requested id, 200 with the
episode serialized as a flat object when one does, and 500 carrying the
exception message when the storage layer fails. -/
theorem get_episode_spec
    (episode_id : Nat) (rows : List EpisodeRec) (msg : String) :
    ((∀ ep ∈ rows, ep.episode_id ≠ episode_id) →
      get_episode (.ok rows) episode_id = (404, .errorObject "Episode not found")) ∧
    ((∃ ep ∈ rows, ep.episode_id = episode_id) →
      ∃ ep, ep ∈ rows ∧ ep.episode_id = episode_id ∧
        get_episode (.ok rows) episode_id = (200, .episodeObject ep)) ∧
    get_episode (.error msg) episode_id = (500, .errorObject msg) := by
  refine ⟨?_, ?_, rfl⟩
  · intro habs
    have hfind : rows.find? (fun ep => ep.episode_id == episode_id) = none := by
      rw [List.find?_eq_none]
      intro ep hep
      simpa using habs ep hep
    simp [get_episode, hfind]
  · intro hex
    have hsome : (rows.find? (fun ep => ep.episode_id == episode_id)).isSome := by
      rw [List.find?_isSome]
      obtain ⟨ep, hmem, heq⟩ := hex
      exact ⟨ep, hmem, by simpa using heq⟩
    obtain ⟨ep, hfind⟩ := Option.isSome_iff_exists.mp hsome
    refine ⟨ep, List.mem_of_find?_eq_some hfind, by simpa using List.find?_some hfind, ?_⟩
    simp [get_episode, hfind]

/-- C9 witness: with the §8 episodes stored, a nonexistent id gives the 404
body, a storage failure gives 500 with its message, and an existing id
gives 200 with the flat episode object. -/
theorem get_episode_spec_witness :
    get_episode (.ok mgEps) 999999 = (404, .errorObject "Episode not found") ∧
    get_episode (.error "db down") 7 = (500, .errorObject "db down") ∧
    get_episode (.ok mgEps) 2 = (200, .episodeObject ⟨2, "Mountain Grandeur", 1, 1, "img1", "yt1", some "1983-01-11"⟩) := by
  have h := get_episode_spec 999999 mgEps "db down"
  exact ⟨h.1 (by decide), (get_episode_spec 7 mgEps "db down").2.2, by decide⟩
